import Mathlib

/-!
Shallow embedding of `src/core/serial_worker.py` (class `SerialWorker`).

The worker owns a serial transport handle (`self.ser`), a run flag
(`self.running`) and an outbound FIFO (`self.send_queue`).  Its `run`
method opens the transport, sleeps 5 s, enqueues the handshake token,
emits a connected event, then loops: read one line (decode or warn),
pop and write one queued frame, sleep 10 ms.  `stop_serial` lowers the
run flag and closes the handle.  Qt signals `data_received(str)` and
`connection_status(bool, str)` are the only event channels.

The embedding turns the thread into a deterministic function of an
environment script: the script says, for each suspension point, what
the transport did (bytes available, decode success, I/O exceptions)
and what the caller did (send_data calls, stop_serial calls).  Machine
behaviour that the code only observes (exception messages, decodability
of raw bytes) is carried as data in the script.
-/

namespace BBControl

/-- whitespace set stripped by Python str.strip() (ASCII part; the code
only ever strips around normal command text and line terminators). -/
def isPyWS (c : Char) : Bool :=
  c == ' ' || c == '\t' || c == '\n' || c == '\r' || c == '\x0b' || c == '\x0c'

/-- strip trailing then leading whitespace characters, modelling
Python str.strip() (both-ends strip; the order does not matter). -/
def pyStripList (l : List Char) : List Char :=
  ((l.reverse.dropWhile isPyWS).reverse).dropWhile isPyWS

/-- model of Python str.strip(). -/
def pyStrip (s : String) : String :=
  String.mk (pyStripList s.data)

/-- UTF-8 encoding of one character, modelling Python str.encode("utf-8")
per code point. -/
def utf8Char (c : Char) : List Nat :=
  let n := c.toNat
  if n < 0x80 then [n]
  else if n < 0x800 then
    [0xC0 ||| (n >>> 6), 0x80 ||| (n &&& 0x3F)]
  else if n < 0x10000 then
    [0xE0 ||| (n >>> 12), 0x80 ||| ((n >>> 6) &&& 0x3F), 0x80 ||| (n &&& 0x3F)]
  else
    [0xF0 ||| (n >>> 18), 0x80 ||| ((n >>> 12) &&& 0x3F),
     0x80 ||| ((n >>> 6) &&& 0x3F), 0x80 ||| (n &&& 0x3F)]

/-- UTF-8 encoding of a string as a byte (Nat) list. -/
def utf8 (s : String) : List Nat :=
  s.data.flatMap utf8Char

/-- the byte frame `send_data` builds for a command:
`data.encode("utf-8") + b"\n"` (serial_worker.py line 96). -/
def frame (data : String) : List Nat :=
  utf8 data ++ [10]

/-- substring test on char lists: does the second list start with the first. -/
def startsWithL : List Char → List Char → Bool
  | [], _ => true
  | _ :: _, [] => false
  | a :: pa, b :: lb => a == b && startsWithL pa lb

/-- substring test on char lists: does `pat` occur contiguously in the list. -/
def hasSub (pat : List Char) : List Char → Bool
  | [] => startsWithL pat []
  | l@(_ :: t) => startsWithL pat l || hasSub pat t

/-- model of Python `"Bad file descriptor" in str(e)`
(serial_worker.py line 112). -/
def containsBadFd (m : String) : Bool :=
  hasSub "Bad file descriptor".data m.data

/-- the two Qt signals of SerialWorker: `data_received(str)` and
`connection_status(bool, str)` (serial_worker.py lines 13-14). -/
inductive Ev where
  | dataReceived (msg : String)
  | connectionStatus (connected : Bool) (msg : String)
deriving DecidableEq

/-- what `self.ser.readline()` returned, as the code observes it: bytes
that decode as UTF-8 to some text, or bytes that raise
UnicodeDecodeError and have a length. -/
inductive Raw where
  | text (s : String)
  | corrupt (len : Nat)
deriving DecidableEq

/-- outcome of the read attempt: data, a serial.SerialException with a
message, or any other exception with a message (lines 51-68). -/
inductive ReadRes where
  | ok (r : Raw)
  | serialErr (m : String)
  | otherErr (m : String)
deriving DecidableEq

/-- outcome of `self.ser.close()` as observed by `stop_serial`
(lines 110-117): success, an OSError with a message, or any
non-OSError exception with a message. -/
inductive CloseRes where
  | ok
  | osErr (m : String)
  | otherExn (m : String)
deriving DecidableEq

/-- mutable fields of SerialWorker relevant to the lifecycle:
`self.running`, `self.ser` (handle opaque, None ↔ none) and
`self.send_queue`.  The queue holds the command texts; the code stores
the already-encoded frame `frame c` — the encoding is applied here at
the points where the code uses the bytes (`frame` at the write,
`pyStrip (c ++ "\n")` for `data_to_send.decode().strip()`). -/
structure WState where
  running : Bool
  ser : Option Unit
  send_queue : List String
deriving DecidableEq

/-- result of one `stop_serial` call: the state afterwards, the message
of the exception it re-raised (none if it returned normally), and
whether `self.ser.close()` was attempted. -/
structure StopRes where
  state : WState
  raised : Option String
  closed : Bool
deriving DecidableEq

/-- SerialWorker.stop_serial (lines 99-120): early return when the run
flag is already down; otherwise lower the flag and, when a handle is
held, close it — an OSError containing "Bad file descriptor" and any
non-OSError exception are swallowed, any other OSError is re-raised;
the `finally` clears the handle in every branch. -/
def stop_serial (s : WState) (c : CloseRes) : StopRes :=
  if s.running = false then ⟨s, none, false⟩
  else
    let s1 : WState := ⟨false, s.ser, s.send_queue⟩
    match s.ser with
    | none => ⟨s1, none, false⟩
    | some _ =>
      match c with
      | .ok => ⟨⟨false, none, s.send_queue⟩, none, true⟩
      | .osErr m =>
        if containsBadFd m then ⟨⟨false, none, s.send_queue⟩, none, true⟩
        else ⟨⟨false, none, s.send_queue⟩, some m, true⟩
      | .otherExn _ => ⟨⟨false, none, s.send_queue⟩, none, true⟩

/-- SerialWorker.send_data (lines 92-97): encode the command, add the
newline terminator, append to the queue.  The model queue stores the
text; `frame` recovers the exact bytes appended by the code. -/
def send_data (data : String) (q : List String) : List String :=
  q ++ [data]

/-- apply a burst of caller `send_data` calls to the worker state. -/
def applyEnq (s : WState) (es : List String) : WState :=
  ⟨s.running, s.ser, es.foldl (fun q d => send_data d q) s.send_queue⟩

/-- apply an optional caller `stop_serial` call to the worker state
(the caller-side exception, if any, propagates in the caller thread and
is not part of the worker trace). -/
def applyStop (s : WState) : Option CloseRes → WState
  | none => s
  | some c => (stop_serial s c).state

/-- environment of one I/O-loop iteration: the caller actions that
landed since the last iteration, whether `in_waiting > 0`, what the
read returned (consulted only when bytes were waiting), and whether
`self.ser.write` raised a serial.SerialException (consulted only when
the queue is non-empty). -/
structure Iter where
  enq : List String
  stopReq : Option CloseRes
  inWaiting : Bool
  rd : ReadRes
  writeErr : Option String
deriving DecidableEq

/-- outcome of the read phase of one iteration (lines 50-68): an event
list to emit and continue, or a connection-status event followed by
`break`. -/
inductive ReadPhase where
  | brk (ev : Ev)
  | cont (evs : List Ev)
deriving DecidableEq

/-- events of the decode step (lines 55-62): decoded text is stripped
and emitted as "RX: ..." when non-empty; a UnicodeDecodeError emits the
corrupt-data warning carrying `len(raw_data)`. -/
def rawEvents : Raw → List Ev
  | .text t =>
    if pyStrip t = "" then []
    else [.dataReceived ("RX: " ++ pyStrip t)]
  | .corrupt n =>
    [.dataReceived ("WARNING: Corrupt data received and discarded (" ++ toString n ++ " bytes).")]

/-- the READ block of the loop (lines 50-68): nothing happens unless
bytes are waiting; a SerialException or any other exception emits a
connection-status event and breaks. -/
def readPhase (it : Iter) : ReadPhase :=
  if it.inWaiting then
    match it.rd with
    | .ok r => .cont (rawEvents r)
    | .serialErr m => .brk (.connectionStatus false ("Read Error: " ++ m))
    | .otherErr m => .brk (.connectionStatus false ("Unexpected Read Error: " ++ m))
  else .cont []

/-- result of one loop iteration: either the loop exits (guard false,
read break, or write break) with the state, events and write attempts
of the iteration, or it continues to the next iteration. -/
inductive StepRes where
  | exit (s : WState) (evs : List Ev) (ws : List (List Nat))
  | next (s : WState) (evs : List Ev) (ws : List (List Nat))
deriving DecidableEq

/-- worker state after the caller actions of an iteration land. -/
def postCaller (s : WState) (it : Iter) : WState :=
  applyStop (applyEnq s it.enq) it.stopReq

/-- one iteration of the `while self.ser and self.running and
self.ser.isOpen()` loop (lines 47-83).  Caller actions land first, then
the guard is evaluated (a handle held by the worker stays open until
the worker closes it, so `isOpen()` is the handle presence); then the
READ block, then the WRITE block: pop the queue head, attempt the
write, emit the "TX: " echo of `data_to_send.decode().strip()` on
success or the "Write Error: " status and break on SerialException. -/
def step (s : WState) (it : Iter) : StepRes :=
  let s1 := postCaller s it
  if s1.ser.isSome && s1.running then
    match readPhase it with
    | .brk ev => .exit s1 [ev] []
    | .cont evR =>
      match s1.send_queue with
      | [] => .next s1 evR []
      | c :: q =>
        match it.writeErr with
        | some m =>
          .exit ⟨s1.running, s1.ser, q⟩
            (evR ++ [.connectionStatus false ("Write Error: " ++ m)]) [frame c]
        | none =>
          .next ⟨s1.running, s1.ser, q⟩
            (evR ++ [.dataReceived ("TX: " ++ pyStrip (c ++ "\n"))]) [frame c]
  else .exit s1 [] []

/-- accumulated outcome of the I/O loop: final state, events emitted in
order, and the byte frames passed to `self.ser.write` in order (the
last one may be the attempt that raised). -/
structure LoopRes where
  state : WState
  events : List Ev
  writes : List (List Nat)
deriving DecidableEq

/-- the I/O loop run against a finite iteration script.  An exhausted
script models the caller eventually issuing a stop with a clean close:
the loop then observes the lowered flag and exits at the guard. -/
def runLoop : WState → List Iter → LoopRes
  | s, [] => ⟨(stop_serial s .ok).state, [], []⟩
  | s, it :: rest =>
    match step s it with
    | .exit s1 evs ws => ⟨s1, evs, ws⟩
    | .next s1 evs ws =>
      let res := runLoop s1 rest
      ⟨res.state, evs ++ res.events, ws ++ res.writes⟩

/-- environment of one whole `run()` execution: whether the transport
open raised a SerialException, the caller `send_data` calls that landed
before the handshake enqueue (the constructor-to-open window and the
5 s stabilization sleep), an optional caller stop during that sleep,
the loop script, and the behaviour of the close performed by the
`finally` teardown (consulted only if that teardown closes). -/
structure Env where
  openErr : Option String
  preEnq : List String
  sleepStop : Option CloseRes
  iters : List Iter
  finalClose : CloseRes
deriving DecidableEq

/-- observable outcome of one `run()` execution: events in emission
order, write attempts in order, the worker state when `run` ends, and
the message of an exception escaping `run` (from the teardown in
`finally`), if any. -/
structure RunResult where
  events : List Ev
  writes : List (List Nat)
  final : WState
  fault : Option String
deriving DecidableEq

/-- worker state when the post-open stabilization sleep ends, after a
successful open: construction set `running = True`, `ser = None`,
`send_queue = []` (lines 19-22), the open set the handle (line 30), and
the caller may have enqueued commands or stopped during the sleep. -/
def preState (e : Env) : WState :=
  applyStop (applyEnq ⟨true, some (), []⟩ e.preEnq) e.sleepStop

/-- the connected-status message of line 43. -/
def connMsg (port : String) (baud : Nat) : String :=
  "Connected to " ++ port ++ " at " ++ toString baud ++
    " baud. Sent INIT_CHECK to confirm link."

/-- lines 40-45: `if self.ser and self.ser.isOpen()` — a handle the
worker holds is open (only `close` in `stop_serial` unsets it), so the
test is handle presence; then the handshake command is enqueued via
`send_data`. -/
def hsState (e : Env) : WState :=
  if (preState e).ser.isSome then applyEnq (preState e) ["INIT_CHECK"]
  else preState e

/-- the connected event of lines 42-44, emitted just after the
handshake enqueue. -/
def hsEvents (port : String) (baud : Nat) (e : Env) : List Ev :=
  if (preState e).ser.isSome then [.connectionStatus true (connMsg port baud)]
  else []

/-- SerialWorker.run (lines 24-90).  An open failure is caught by the
outer `except serial.SerialException` which emits
"Connection Failed: ..."; otherwise the worker stabilizes, performs the
handshake steps, and enters the loop.  The `finally` calls
`stop_serial` and — only when that returned normally — emits the final
`connection_status(False, "Disconnected.")`; an exception re-raised by
`stop_serial` escapes `run` instead. -/
def run (port : String) (baud : Nat) (e : Env) : RunResult :=
  match e.openErr with
  | some msg =>
    let r := stop_serial ⟨true, none, []⟩ e.finalClose
    ⟨[.connectionStatus false ("Connection Failed: " ++ msg)] ++
       (match r.raised with
        | none => [.connectionStatus false "Disconnected."]
        | some _ => []),
     [], r.state, r.raised⟩
  | none =>
    let res := runLoop (hsState e) e.iters
    let r := stop_serial res.state e.finalClose
    ⟨hsEvents port baud e ++ res.events ++
       (match r.raised with
        | none => [.connectionStatus false "Disconnected."]
        | some _ => []),
     res.writes, r.state, r.raised⟩

/-- a close outcome whose exception (if any) `stop_serial` swallows. -/
def benignClose : CloseRes → Bool
  | .ok => true
  | .osErr m => containsBadFd m
  | .otherExn _ => true

/-- event is a `connection_status(True, ...)` emission. -/
def isConnTrue : Ev → Bool
  | .connectionStatus true _ => true
  | _ => false

/-- event is a `connection_status(False, ...)` emission. -/
def isConnFalse : Ev → Bool
  | .connectionStatus false _ => true
  | _ => false

/-- event is the `connection_status(False, "Write Error: ...")`
emission of the write handler (line 80). -/
def isWriteErrEv : Ev → Bool
  | .connectionStatus false m => startsWithL "Write Error: ".data m.data
  | .connectionStatus true _ => false
  | .dataReceived _ => false

/-- state projection of a step outcome. -/
def StepRes.st : StepRes → WState
  | .exit s _ _ => s
  | .next s _ _ => s

/-- events projection of a step outcome. -/
def StepRes.evs : StepRes → List Ev
  | .exit _ evs _ => evs
  | .next _ evs _ => evs

/-- write-attempts projection of a step outcome. -/
def StepRes.wrs : StepRes → List (List Nat)
  | .exit _ _ ws => ws
  | .next _ _ ws => ws

/-- loop iteration in which the transport is idle and the caller does
nothing: no bytes waiting, no enqueue, no stop, and a write (if one
happens) succeeds. -/
def idleIter : Iter :=
  ⟨[], none, false, .ok (.text ""), none⟩

/-- iteration in which inbound bytes fail UTF-8 decoding with `n` raw
bytes discarded, and nothing else happens. -/
def corruptIter (n : Nat) : Iter :=
  ⟨[], none, true, .ok (.corrupt n), none⟩

/-- iteration in which a line decoding to `t` arrives, and nothing
else happens. -/
def textIter (t : String) : Iter :=
  ⟨[], none, true, .ok (.text t), none⟩

/-- iteration whose write attempt raises a SerialException with
message `m`, with no inbound bytes and no caller action. -/
def writeFailIter (m : String) : Iter :=
  ⟨[], none, false, .ok (.text ""), some m⟩

/-- the shapes a payload on the `data_received` signal can take: every
emission on that channel is an "RX: " line (trimmed inbound text,
non-empty), a "TX: " echo (trimmed command text), or the
"WARNING: ..." corrupt-data message; connection changes ride the other
signal. -/
def evShape (e : Ev) : Prop :=
  (∃ c m, e = .connectionStatus c m) ∨
  (∃ t, pyStrip t ≠ "" ∧ e = .dataReceived ("RX: " ++ pyStrip t)) ∨
  (∃ c, e = .dataReceived ("TX: " ++ pyStrip c)) ∨
  (∃ n : Nat, e = .dataReceived
    ("WARNING: Corrupt data received and discarded (" ++ toString n ++ " bytes)."))

/-- worker invariant: whenever the run flag is down the handle has been
cleared (every code path that lowers the flag also clears the handle in
the same `stop_serial` call). -/
def invOK (s : WState) : Prop :=
  s.running = false → s.ser = none

end BBControl

namespace BBControl

example : pyStrip "  A1\n" = "A1" := by decide

example : frame "A1" = [65, 49, 10] := by decide

example : containsBadFd "[Errno 9] Bad file descriptor" = true := by decide

example : containsBadFd "Input output error" = false := by decide

/-- dropping a trailing newline before stripping changes nothing. -/
theorem pyStripList_concat_newline (l : List Char) :
    pyStripList (l ++ ['\n']) = pyStripList l := by
  have h : isPyWS '\n' = true := rfl
  simp [pyStripList, List.dropWhile_cons, h]

/-- Python `(c + "\n").strip()` equals `c.strip()`: the appended line
terminator is whitespace. -/
theorem pyStrip_append_newline (c : String) :
    pyStrip (c ++ "\n") = pyStrip c := by
  cases c with
  | mk l =>
    have h2 : ("\n" : String).data = ['\n'] := rfl
    simp [pyStrip, String.data_append, h2, pyStripList_concat_newline]

/-- stop_serial on a worker whose flag is already down returns at once:
state untouched, nothing raised, no close attempted (lines 103-104). -/
theorem stop_serial_not_running (s : WState) (c : CloseRes)
    (h : s.running = false) : stop_serial s c = ⟨s, none, false⟩ := by
  simp [stop_serial, h]

/-- stop_serial on a running worker always ends with the flag down and
the handle cleared, whatever the close did (the `finally` on line 119
clears the handle in every branch, including the re-raising one). -/
theorem stop_serial_state_of_running (s : WState) (c : CloseRes)
    (h : s.running = true) :
    (stop_serial s c).state = ⟨false, none, s.send_queue⟩ := by
  rcases s with ⟨r, sr, q⟩
  simp only at h
  subst h
  cases sr <;> cases c <;> simp [stop_serial]
  all_goals split <;> rfl

/-- the run flag is down after any stop_serial call. -/
theorem stop_serial_state_running (s : WState) (c : CloseRes) :
    (stop_serial s c).state.running = false := by
  cases h : s.running
  · rw [stop_serial_not_running s c h]; exact h
  · rw [stop_serial_state_of_running s c h]

/-- stop_serial re-raises nothing when the close outcome is benign
(success, an OSError mentioning "Bad file descriptor", or a non-OSError
exception). -/
theorem stop_serial_raised_benign (s : WState) (c : CloseRes)
    (h : benignClose c = true) : (stop_serial s c).raised = none := by
  rcases s with ⟨r, sr, q⟩
  cases r <;> cases sr <;> cases c <;>
    simp_all [stop_serial, benignClose]

/-- stop_serial never touches the queue. -/
theorem stop_serial_state_queue (s : WState) (c : CloseRes) :
    (stop_serial s c).state.send_queue = s.send_queue := by
  cases h : s.running
  · rw [stop_serial_not_running s c h]
  · rw [stop_serial_state_of_running s c h]

/-- folding send_data appends the commands in order. -/
theorem foldl_send_data (es q : List String) :
    es.foldl (fun q d => send_data d q) q = q ++ es := by
  induction es generalizing q with
  | nil => simp
  | cons a t ih =>
    rw [List.foldl_cons, ih]
    simp [send_data]

/-- applyEnq on an explicit state. -/
theorem applyEnq_mk (r : Bool) (sr : Option Unit) (q es : List String) :
    applyEnq ⟨r, sr, q⟩ es = ⟨r, sr, q ++ es⟩ := by
  simp [applyEnq, foldl_send_data]

/-- caller enqueues extend the queue and touch nothing else. -/
theorem applyEnq_queue (s : WState) (es : List String) :
    (applyEnq s es).send_queue = s.send_queue ++ es := by
  simp [applyEnq, foldl_send_data]

theorem applyEnq_running (s : WState) (es : List String) :
    (applyEnq s es).running = s.running := rfl

theorem applyEnq_ser (s : WState) (es : List String) :
    (applyEnq s es).ser = s.ser := rfl

/-- a caller stop request never touches the queue. -/
theorem applyStop_queue (s : WState) (o : Option CloseRes) :
    (applyStop s o).send_queue = s.send_queue := by
  cases o with
  | none => rfl
  | some c => exact stop_serial_state_queue s c

/-- the invariant survives a stop_serial call. -/
theorem invOK_stop_serial (s : WState) (c : CloseRes) (h : invOK s) :
    invOK (stop_serial s c).state := by
  cases hr : s.running
  · rw [stop_serial_not_running s c hr]; exact h
  · rw [stop_serial_state_of_running s c hr]; intro; rfl

/-- the invariant survives caller enqueues. -/
theorem invOK_applyEnq (s : WState) (es : List String) (h : invOK s) :
    invOK (applyEnq s es) := by
  intro hr
  rw [applyEnq_ser]
  exact h (by rw [← applyEnq_running s es]; exact hr)

/-- the invariant survives an optional caller stop. -/
theorem invOK_applyStop (s : WState) (o : Option CloseRes) (h : invOK s) :
    invOK (applyStop s o) := by
  cases o with
  | none => exact h
  | some c => exact invOK_stop_serial s c h

/-- on a state satisfying the invariant, any stop_serial call ends
closed: flag down and handle cleared. -/
theorem stop_serial_closed (s : WState) (c : CloseRes) (h : invOK s) :
    (stop_serial s c).state.running = false ∧
      (stop_serial s c).state.ser = none := by
  cases hr : s.running
  · rw [stop_serial_not_running s c hr]
    exact ⟨hr, h hr⟩
  · rw [stop_serial_state_of_running s c hr]
    exact ⟨rfl, rfl⟩

/-- the caller actions of an iteration only append to the queue. -/
theorem postCaller_queue (s : WState) (it : Iter) :
    (postCaller s it).send_queue = s.send_queue ++ it.enq := by
  rw [postCaller, applyStop_queue, applyEnq_queue]

/-- the invariant survives the caller actions of an iteration. -/
theorem invOK_postCaller (s : WState) (it : Iter) (h : invOK s) :
    invOK (postCaller s it) :=
  invOK_applyStop _ _ (invOK_applyEnq _ _ h)

/-- step evaluation: the guard `self.ser and self.running and
self.ser.isOpen()` fails, the loop exits with no action. -/
theorem step_guard_false (s : WState) (it : Iter)
    (hg : ((postCaller s it).ser.isSome && (postCaller s it).running) = false) :
    step s it = .exit (postCaller s it) [] [] := by
  simp [step, hg]

/-- step evaluation: a read exception emits its status event and
breaks. -/
theorem step_brk (s : WState) (it : Iter) (ev : Ev)
    (hg : ((postCaller s it).ser.isSome && (postCaller s it).running) = true)
    (hrp : readPhase it = .brk ev) :
    step s it = .exit (postCaller s it) [ev] [] := by
  simp [step, hg, hrp]

/-- step evaluation: read phase done, nothing queued — the iteration
emits the read events and continues. -/
theorem step_cont_nil (s : WState) (it : Iter) (evR : List Ev)
    (hg : ((postCaller s it).ser.isSome && (postCaller s it).running) = true)
    (hrp : readPhase it = .cont evR)
    (hq : (postCaller s it).send_queue = []) :
    step s it = .next (postCaller s it) evR [] := by
  simp [step, hg, hrp, hq]

/-- step evaluation: the popped write raises — the Write Error status
is emitted after the read events and the loop breaks. -/
theorem step_cont_cons_werr (s : WState) (it : Iter) (evR : List Ev)
    (c : String) (q : List String) (m : String)
    (hg : ((postCaller s it).ser.isSome && (postCaller s it).running) = true)
    (hrp : readPhase it = .cont evR)
    (hq : (postCaller s it).send_queue = c :: q)
    (hw : it.writeErr = some m) :
    step s it = .exit ⟨(postCaller s it).running, (postCaller s it).ser, q⟩
      (evR ++ [.connectionStatus false ("Write Error: " ++ m)]) [frame c] := by
  simp [step, hg, hrp, hq, hw]

/-- step evaluation: the popped write succeeds — its echo is emitted
after the read events and the loop continues. -/
theorem step_cont_cons_ok (s : WState) (it : Iter) (evR : List Ev)
    (c : String) (q : List String)
    (hg : ((postCaller s it).ser.isSome && (postCaller s it).running) = true)
    (hrp : readPhase it = .cont evR)
    (hq : (postCaller s it).send_queue = c :: q)
    (hw : it.writeErr = none) :
    step s it = .next ⟨(postCaller s it).running, (postCaller s it).ser, q⟩
      (evR ++ [.dataReceived ("TX: " ++ pyStrip (c ++ "\n"))]) [frame c] := by
  simp [step, hg, hrp, hq, hw]

/-- a read break event is a disconnection status (lines 64-68). -/
theorem readPhase_brk_shape (it : Iter) (ev : Ev)
    (h : readPhase it = .brk ev) : ∃ m, ev = .connectionStatus false m := by
  rcases it with ⟨enq, sr, iw, rd, we⟩
  cases iw with
  | false => simp [readPhase] at h
  | true =>
    cases rd with
    | ok r => simp [readPhase] at h
    | serialErr m => simp [readPhase] at h; exact ⟨_, h.symm⟩
    | otherErr m => simp [readPhase] at h; exact ⟨_, h.symm⟩

/-- the read events of a continuing read phase are the decode events
of the raw data. -/
theorem readPhase_cont_shape (it : Iter) (evR : List Ev)
    (h : readPhase it = .cont evR) :
    evR = [] ∨ ∃ r, evR = rawEvents r := by
  rcases it with ⟨enq, sr, iw, rd, we⟩
  cases iw with
  | false => simp [readPhase] at h; exact Or.inl h
  | true =>
    cases rd with
    | ok r => simp [readPhase] at h; exact Or.inr ⟨r, h.symm⟩
    | serialErr m => simp [readPhase] at h
    | otherErr m => simp [readPhase] at h

/-- decode events are data_received payloads of the RX or WARNING
shape, never a connection status and never a Write Error status. -/
theorem rawEvents_mem (r : Raw) (e : Ev) (h : e ∈ rawEvents r) :
    evShape e ∧ isConnTrue e = false ∧ isWriteErrEv e = false := by
  cases r with
  | text t =>
    by_cases ht : pyStrip t = ""
    · simp [rawEvents, ht] at h
    · simp [rawEvents, ht] at h
      subst h
      exact ⟨Or.inr (Or.inl ⟨t, ht, rfl⟩), rfl, rfl⟩
  | corrupt n =>
    simp [rawEvents] at h
    subst h
    exact ⟨Or.inr (Or.inr (Or.inr ⟨n, rfl⟩)), rfl, rfl⟩

/-- events of a continuing read phase satisfy the payload shapes. -/
theorem cont_evs_mem (it : Iter) (evR : List Ev)
    (hrp : readPhase it = .cont evR) (e : Ev) (h : e ∈ evR) :
    evShape e ∧ isConnTrue e = false ∧ isWriteErrEv e = false := by
  rcases readPhase_cont_shape it evR hrp with h0 | ⟨r, h0⟩
  · subst h0; simp at h
  · subst h0; exact rawEvents_mem r e h

/-- the state of a step outcome satisfies the invariant. -/
theorem step_st_inv (s : WState) (it : Iter) (h : invOK s) :
    invOK (step s it).st := by
  have h1 := invOK_postCaller s it h
  cases hg : ((postCaller s it).ser.isSome && (postCaller s it).running) with
  | false => rw [step_guard_false s it hg]; exact h1
  | true =>
    cases hrp : readPhase it with
    | brk ev => rw [step_brk s it ev hg hrp]; exact h1
    | cont evR =>
      cases hq : (postCaller s it).send_queue with
      | nil => rw [step_cont_nil s it evR hg hrp hq]; exact h1
      | cons c q =>
        cases hw : it.writeErr with
        | some m => rw [step_cont_cons_werr s it evR c q m hg hrp hq hw]; exact h1
        | none => rw [step_cont_cons_ok s it evR c q hg hrp hq hw]; exact h1

/-- every event a step emits is one of the payload shapes and is not a
connected status. -/
theorem step_evs_mem (s : WState) (it : Iter) (e : Ev)
    (h : e ∈ (step s it).evs) : evShape e ∧ isConnTrue e = false := by
  cases hg : ((postCaller s it).ser.isSome && (postCaller s it).running) with
  | false => rw [step_guard_false s it hg] at h; simp [StepRes.evs] at h
  | true =>
    cases hrp : readPhase it with
    | brk ev =>
      rw [step_brk s it ev hg hrp] at h
      simp [StepRes.evs] at h
      subst h
      obtain ⟨m, hm⟩ := readPhase_brk_shape it e hrp
      subst hm
      exact ⟨Or.inl ⟨false, m, rfl⟩, rfl⟩
    | cont evR =>
      cases hq : (postCaller s it).send_queue with
      | nil =>
        rw [step_cont_nil s it evR hg hrp hq] at h
        have h2 := cont_evs_mem it evR hrp e h
        exact ⟨h2.1, h2.2.1⟩
      | cons c q =>
        cases hw : it.writeErr with
        | some m =>
          rw [step_cont_cons_werr s it evR c q m hg hrp hq hw] at h
          rcases List.mem_append.mp h with h | h
          · have h2 := cont_evs_mem it evR hrp e h
            exact ⟨h2.1, h2.2.1⟩
          · simp at h
            subst h
            exact ⟨Or.inl ⟨false, _, rfl⟩, rfl⟩
        | none =>
          rw [step_cont_cons_ok s it evR c q hg hrp hq hw] at h
          rcases List.mem_append.mp h with h | h
          · have h2 := cont_evs_mem it evR hrp e h
            exact ⟨h2.1, h2.2.1⟩
          · simp at h
            subst h
            exact ⟨Or.inr (Or.inr (Or.inl ⟨c ++ "\n", rfl⟩)), rfl⟩

/-- a continuing step emits no Write Error status. -/
theorem step_next_countWE (s : WState) (it : Iter) (s1 : WState)
    (evs : List Ev) (ws : List (List Nat)) (h : step s it = .next s1 evs ws) :
    evs.countP isWriteErrEv = 0 := by
  cases hg : ((postCaller s it).ser.isSome && (postCaller s it).running) with
  | false => rw [step_guard_false s it hg] at h; simp at h
  | true =>
    cases hrp : readPhase it with
    | brk ev => rw [step_brk s it ev hg hrp] at h; simp at h
    | cont evR =>
      have hR : evR.countP isWriteErrEv = 0 := by
        rw [List.countP_eq_zero]
        intro e he
        simp [(cont_evs_mem it evR hrp e he).2.2]
      cases hq : (postCaller s it).send_queue with
      | nil =>
        rw [step_cont_nil s it evR hg hrp hq] at h
        cases h
        exact hR
      | cons c q =>
        cases hw : it.writeErr with
        | some m => rw [step_cont_cons_werr s it evR c q m hg hrp hq hw] at h; simp at h
        | none =>
          rw [step_cont_cons_ok s it evR c q hg hrp hq hw] at h
          cases h
          rw [List.countP_append, hR]
          rfl

/-- an exiting step emits at most one Write Error status. -/
theorem step_exit_countWE (s : WState) (it : Iter) (s1 : WState)
    (evs : List Ev) (ws : List (List Nat)) (h : step s it = .exit s1 evs ws) :
    evs.countP isWriteErrEv ≤ 1 := by
  cases hg : ((postCaller s it).ser.isSome && (postCaller s it).running) with
  | false => rw [step_guard_false s it hg] at h; cases h; simp
  | true =>
    cases hrp : readPhase it with
    | brk ev =>
      rw [step_brk s it ev hg hrp] at h
      cases h
      simp [List.countP_cons]
      cases isWriteErrEv ev <;> simp
    | cont evR =>
      have hR : evR.countP isWriteErrEv = 0 := by
        rw [List.countP_eq_zero]
        intro e he
        simp [(cont_evs_mem it evR hrp e he).2.2]
      cases hq : (postCaller s it).send_queue with
      | nil => rw [step_cont_nil s it evR hg hrp hq] at h; simp at h
      | cons c q =>
        cases hw : it.writeErr with
        | none => rw [step_cont_cons_ok s it evR c q hg hrp hq hw] at h; simp at h
        | some m =>
          rw [step_cont_cons_werr s it evR c q m hg hrp hq hw] at h
          cases h
          rw [List.countP_append, hR]
          simp [List.countP_cons]
          cases isWriteErrEv (Ev.connectionStatus false ("Write Error: " ++ m)) <;> simp

/-- FIFO at step level: the frames a step writes are the encodings of
commands popped off the front of the queue extended by the iteration's
enqueues. -/
theorem step_fifo (s : WState) (it : Iter) :
    ∃ popped, (step s it).wrs = popped.map frame ∧
      popped ++ (step s it).st.send_queue = s.send_queue ++ it.enq := by
  cases hg : ((postCaller s it).ser.isSome && (postCaller s it).running) with
  | false =>
    rw [step_guard_false s it hg]
    exact ⟨[], rfl, postCaller_queue s it⟩
  | true =>
    cases hrp : readPhase it with
    | brk ev =>
      rw [step_brk s it ev hg hrp]
      exact ⟨[], rfl, postCaller_queue s it⟩
    | cont evR =>
      cases hq : (postCaller s it).send_queue with
      | nil =>
        rw [step_cont_nil s it evR hg hrp hq]
        exact ⟨[], rfl, postCaller_queue s it⟩
      | cons c q =>
        have hcq : c :: q = s.send_queue ++ it.enq := by
          rw [← hq, postCaller_queue]
        cases hw : it.writeErr with
        | some m =>
          rw [step_cont_cons_werr s it evR c q m hg hrp hq hw]
          exact ⟨[c], rfl, hcq⟩
        | none =>
          rw [step_cont_cons_ok s it evR c q hg hrp hq hw]
          exact ⟨[c], rfl, hcq⟩

/-- runLoop on an exhausted script: the modelled caller stop, then the
guard fails. -/
theorem runLoop_nil (s : WState) :
    runLoop s [] = ⟨(stop_serial s .ok).state, [], []⟩ := rfl

/-- runLoop unfolding when the head iteration exits the loop. -/
theorem runLoop_cons_exit (s : WState) (it : Iter) (rest : List Iter)
    (s1 : WState) (evs : List Ev) (ws : List (List Nat))
    (h : step s it = .exit s1 evs ws) :
    runLoop s (it :: rest) = ⟨s1, evs, ws⟩ := by
  simp [runLoop, h]

/-- runLoop unfolding when the head iteration continues. -/
theorem runLoop_cons_next (s : WState) (it : Iter) (rest : List Iter)
    (s1 : WState) (evs : List Ev) (ws : List (List Nat))
    (h : step s it = .next s1 evs ws) :
    runLoop s (it :: rest) =
      ⟨(runLoop s1 rest).state, evs ++ (runLoop s1 rest).events,
       ws ++ (runLoop s1 rest).writes⟩ := by
  simp [runLoop, h]

/-- the loop preserves the worker invariant. -/
theorem runLoop_inv (iters : List Iter) :
    ∀ s, invOK s → invOK (runLoop s iters).state := by
  induction iters with
  | nil =>
    intro s h
    rw [runLoop_nil]
    intro _
    exact (stop_serial_closed s .ok h).2
  | cons it rest ih =>
    intro s h
    cases hstep : step s it with
    | exit s1 evs ws =>
      rw [runLoop_cons_exit s it rest s1 evs ws hstep]
      have h2 := step_st_inv s it h
      rw [hstep] at h2
      exact h2
    | next s1 evs ws =>
      rw [runLoop_cons_next s it rest s1 evs ws hstep]
      have h2 := step_st_inv s it h
      rw [hstep] at h2
      exact ih s1 h2

/-- every loop event is one of the payload shapes and is never a
connected status. -/
theorem runLoop_evs_mem (iters : List Iter) :
    ∀ s e, e ∈ (runLoop s iters).events → evShape e ∧ isConnTrue e = false := by
  induction iters with
  | nil =>
    intro s e h
    rw [runLoop_nil] at h
    simp at h
  | cons it rest ih =>
    intro s e h
    cases hstep : step s it with
    | exit s1 evs ws =>
      rw [runLoop_cons_exit s it rest s1 evs ws hstep] at h
      exact step_evs_mem s it e (by rw [hstep]; exact h)
    | next s1 evs ws =>
      rw [runLoop_cons_next s it rest s1 evs ws hstep] at h
      rcases List.mem_append.mp h with h | h
      · exact step_evs_mem s it e (by rw [hstep]; exact h)
      · exact ih s1 e h

/-- the loop emits at most one Write Error status in total: the first
write failure breaks it. -/
theorem runLoop_countWE (iters : List Iter) :
    ∀ s, (runLoop s iters).events.countP isWriteErrEv ≤ 1 := by
  induction iters with
  | nil => intro s; rw [runLoop_nil]; simp
  | cons it rest ih =>
    intro s
    cases hstep : step s it with
    | exit s1 evs ws =>
      rw [runLoop_cons_exit s it rest s1 evs ws hstep]
      exact step_exit_countWE s it s1 evs ws hstep
    | next s1 evs ws =>
      rw [runLoop_cons_next s it rest s1 evs ws hstep]
      have h0 := step_next_countWE s it s1 evs ws hstep
      calc (evs ++ (runLoop s1 rest).events).countP isWriteErrEv
          = evs.countP isWriteErrEv + ((runLoop s1 rest).events).countP isWriteErrEv :=
            List.countP_append _ _ _
        _ ≤ 1 := by rw [h0]; simpa using ih s1

/-- FIFO for the whole loop: the write attempts are the frames of a
prefix of the queue contents extended by all enqueues, in order. -/
theorem runLoop_fifo (iters : List Iter) :
    ∀ s, ∃ cs t, cs ++ t = s.send_queue ++ iters.flatMap Iter.enq ∧
      (runLoop s iters).writes = cs.map frame := by
  induction iters with
  | nil =>
    intro s
    exact ⟨[], s.send_queue, by simp, rfl⟩
  | cons it rest ih =>
    intro s
    obtain ⟨popped, hw, hq⟩ := step_fifo s it
    cases hstep : step s it with
    | exit s1 evs ws =>
      rw [hstep] at hw hq
      simp only [StepRes.st, StepRes.wrs] at hw hq
      refine ⟨popped, s1.send_queue ++ rest.flatMap Iter.enq, ?_, ?_⟩
      · rw [← List.append_assoc, hq, List.flatMap_cons, List.append_assoc]
      · rw [runLoop_cons_exit s it rest s1 evs ws hstep]
        exact hw
    | next s1 evs ws =>
      rw [hstep] at hw hq
      simp only [StepRes.st, StepRes.wrs] at hw hq
      obtain ⟨cs, t, hct, hws⟩ := ih s1
      refine ⟨popped ++ cs, t, ?_, ?_⟩
      · rw [List.append_assoc, hct, ← List.append_assoc, hq,
          List.flatMap_cons, List.append_assoc]
      · rw [runLoop_cons_next s it rest s1 evs ws hstep]
        show ws ++ (runLoop s1 rest).writes = (popped ++ cs).map frame
        rw [List.map_append, hw, hws]

/-- an idle iteration on a worker with a pending command writes that
command's frame and echoes it. -/
theorem step_idle_cons (c : String) (q : List String) :
    step ⟨true, some (), c :: q⟩ idleIter =
      .next ⟨true, some (), q⟩
        [.dataReceived ("TX: " ++ pyStrip (c ++ "\n"))] [frame c] := by
  simp [step, postCaller, idleIter, applyStop, applyEnq_mk, readPhase]

/-- draining run: a connected worker with queue `q0`, left alone for
one idle iteration per pending command, writes exactly the frames of
`q0` in order, each immediately followed by its echo event. -/
theorem runLoop_drain (q0 : List String) :
    (runLoop ⟨true, some (), q0⟩ (List.replicate q0.length idleIter)).writes =
        q0.map frame ∧
      (runLoop ⟨true, some (), q0⟩ (List.replicate q0.length idleIter)).events =
        q0.map (fun c => Ev.dataReceived ("TX: " ++ pyStrip c)) := by
  induction q0 with
  | nil => exact ⟨rfl, rfl⟩
  | cons c q ihq =>
    rw [List.length_cons, List.replicate_succ]
    rw [runLoop_cons_next _ _ _ _ _ _ (step_idle_cons c q)]
    constructor
    · show frame c :: (runLoop ⟨true, some (), q⟩ (List.replicate q.length idleIter)).writes = _
      rw [ihq.1]
      rfl
    · show Ev.dataReceived ("TX: " ++ pyStrip (c ++ "\n")) ::
          (runLoop ⟨true, some (), q⟩ (List.replicate q.length idleIter)).events = _
      rw [ihq.2, pyStrip_append_newline]
      rfl

/-- run on an open failure computes completely: the failure status,
then the teardown (which finds no handle to close) and the final
Disconnected status. -/
theorem run_open_fail (p : String) (b : Nat) (e : Env) (msg : String)
    (h : e.openErr = some msg) :
    run p b e =
      ⟨[.connectionStatus false ("Connection Failed: " ++ msg),
        .connectionStatus false "Disconnected."],
       [], ⟨false, none, []⟩, none⟩ := by
  simp [run, h, stop_serial]

theorem run_events_open_ok (p : String) (b : Nat) (e : Env)
    (h : e.openErr = none) :
    (run p b e).events =
      hsEvents p b e ++ (runLoop (hsState e) e.iters).events ++
        (match (stop_serial (runLoop (hsState e) e.iters).state e.finalClose).raised with
         | none => [.connectionStatus false "Disconnected."]
         | some _ => []) := by
  simp [run, h]

theorem run_writes_open_ok (p : String) (b : Nat) (e : Env)
    (h : e.openErr = none) :
    (run p b e).writes = (runLoop (hsState e) e.iters).writes := by
  simp [run, h]

theorem run_final_open_ok (p : String) (b : Nat) (e : Env)
    (h : e.openErr = none) :
    (run p b e).final =
      (stop_serial (runLoop (hsState e) e.iters).state e.finalClose).state := by
  simp [run, h]

theorem run_fault_open_ok (p : String) (b : Nat) (e : Env)
    (h : e.openErr = none) :
    (run p b e).fault =
      (stop_serial (runLoop (hsState e) e.iters).state e.finalClose).raised := by
  simp [run, h]

/-- the worker state at the handshake point satisfies the invariant. -/
theorem invOK_hsState (e : Env) : invOK (hsState e) := by
  have h0 : invOK (⟨true, some (), []⟩ : WState) := by
    intro h
    simp at h
  have h1 : invOK (preState e) :=
    invOK_applyStop _ _ (invOK_applyEnq _ _ h0)
  unfold hsState
  split
  · exact invOK_applyEnq _ _ h1
  · exact h1

/-- whatever the environment does, run ends with the flag down and the
handle cleared. -/
theorem run_final_closed (p : String) (b : Nat) (e : Env) :
    (run p b e).final.running = false ∧ (run p b e).final.ser = none := by
  cases ho : e.openErr with
  | some msg => rw [run_open_fail p b e msg ho]; exact ⟨rfl, rfl⟩
  | none =>
    rw [run_final_open_ok p b e ho]
    exact stop_serial_closed _ _ (runLoop_inv e.iters _ (invOK_hsState e))

/-- a benign teardown close means no exception escapes run. -/
theorem run_fault_benign (p : String) (b : Nat) (e : Env)
    (h : benignClose e.finalClose = true) : (run p b e).fault = none := by
  cases ho : e.openErr with
  | some msg => rw [run_open_fail p b e msg ho]
  | none =>
    rw [run_fault_open_ok p b e ho]
    exact stop_serial_raised_benign _ _ h

/-- the last element of an event list ending in the Disconnected
status. -/
theorem lastDisc (A B : List Ev) :
    (A ++ B ++ [Ev.connectionStatus false "Disconnected."]).getLast? =
      some (Ev.connectionStatus false "Disconnected.") := by
  rw [List.getLast?_append_cons]
  rfl

/-- when run raises nothing, its very last event is the final
Disconnected status. -/
theorem run_last_event (p : String) (b : Nat) (e : Env)
    (h : (run p b e).fault = none) :
    (run p b e).events.getLast? =
      some (.connectionStatus false "Disconnected.") := by
  cases ho : e.openErr with
  | some msg => rw [run_open_fail p b e msg ho]; rfl
  | none =>
    have h2 : (stop_serial (runLoop (hsState e) e.iters).state e.finalClose).raised = none := by
      rw [run_fault_open_ok p b e ho] at h
      exact h
    rw [run_events_open_ok p b e ho, h2]
    exact lastDisc _ _

/-- the "Connection Failed: " status is never a Write Error status. -/
theorem isWriteErrEv_connFailed (m : String) :
    isWriteErrEv (.connectionStatus false ("Connection Failed: " ++ m)) = false := by
  show startsWithL "Write Error: ".data ("Connection Failed: " ++ m).data = false
  rw [String.data_append]
  have hW : ("Write Error: " : String).data = 'W' :: "rite Error: ".data := rfl
  have hC : ("Connection Failed: " : String).data = 'C' :: "onnection Failed: ".data := rfl
  have hne : ('W' == 'C') = false := by decide
  rw [hW, hC]
  simp [startsWithL, hne]

/-- over one whole run, at most one Write Error status is ever
emitted: the first write failure breaks the loop and the remaining
events are of other kinds. -/
theorem run_countWE (p : String) (b : Nat) (e : Env) :
    (run p b e).events.countP isWriteErrEv ≤ 1 := by
  have hd : isWriteErrEv (Ev.connectionStatus false "Disconnected.") = false := by decide
  cases ho : e.openErr with
  | some msg =>
    rw [run_open_fail p b e msg ho]
    simp [List.countP_cons, isWriteErrEv_connFailed, hd]
  | none =>
    rw [run_events_open_ok p b e ho]
    have h1 : (hsEvents p b e).countP isWriteErrEv = 0 := by
      unfold hsEvents
      split
      · simp [List.countP_cons, isWriteErrEv]
      · rfl
    have h2 : (match (stop_serial (runLoop (hsState e) e.iters).state e.finalClose).raised with
         | none => [Ev.connectionStatus false "Disconnected."]
         | some _ => ([] : List Ev)).countP isWriteErrEv = 0 := by
      cases (stop_serial (runLoop (hsState e) e.iters).state e.finalClose).raised <;>
        simp [List.countP_cons, hd]
    rw [List.countP_append, List.countP_append, h1, h2]
    have h3 := runLoop_countWE e.iters (hsState e)
    omega

/-- in a quiet environment (no pre-handshake caller action) a
successful open reaches the handshake with the constructed state. -/
theorem preState_quiet (iters : List Iter) (fc : CloseRes) :
    preState ⟨none, [], none, iters, fc⟩ = ⟨true, some (), []⟩ := by
  simp [preState, applyStop, applyEnq_mk]

/-- quiet environment: the handshake enqueues INIT_CHECK as the only
queued command. -/
theorem hsState_quiet (iters : List Iter) (fc : CloseRes) :
    hsState ⟨none, [], none, iters, fc⟩ = ⟨true, some (), ["INIT_CHECK"]⟩ := by
  rw [hsState, preState_quiet]
  simp [applyEnq_mk]

/-- quiet environment: the handshake emits exactly the connected
status. -/
theorem hsEvents_quiet (p : String) (b : Nat) (iters : List Iter) (fc : CloseRes) :
    hsEvents p b ⟨none, [], none, iters, fc⟩ =
      [.connectionStatus true (connMsg p b)] := by
  rw [hsEvents, preState_quiet]
  rfl

/-- C1, counterexample.  A write failure breaks the loop with the
worker still holding the handle; the teardown in `finally` then closes
it, and when that close raises an OSError whose message does not
contain "Bad file descriptor", `stop_serial` re-raises it: the
exception escapes `run` as an uncaught fault and the final
ConnectionChanged(false, "Disconnected.") is never emitted — the last
event of the execution is the Write Error status. -/
theorem c1_counterexample :
    (run "COM3" 9600
        ⟨none, [], none, [writeFailIter "boom"], .osErr "Input output error"⟩).fault =
        some "Input output error" ∧
      (run "COM3" 9600
        ⟨none, [], none, [writeFailIter "boom"], .osErr "Input output error"⟩).events.getLast? =
        some (.connectionStatus false "Write Error: boom") := by
  constructor <;> rfl

/-- C1, amended.  Whenever the teardown close outcome is benign (a
clean close, an OSError mentioning "Bad file descriptor", or a
non-OSError exception — the cases `stop_serial` swallows), every
execution of the run lifecycle ends without an escaping fault, reaches
the Closed state (flag down, handle cleared) and emits the final
ConnectionChanged(false, "Disconnected.") as its very last event, on
every path (normal stop, read error, write error, open failure). -/
theorem c1_amended (p : String) (b : Nat) (e : Env)
    (h : benignClose e.finalClose = true) :
    (run p b e).fault = none ∧
      (run p b e).events.getLast? =
        some (.connectionStatus false "Disconnected.") ∧
      (run p b e).final.running = false ∧ (run p b e).final.ser = none :=
  ⟨run_fault_benign p b e h,
   run_last_event p b e (run_fault_benign p b e h),
   (run_final_closed p b e).1, (run_final_closed p b e).2⟩

/-- C1, witness for the amended theorem at a concrete benign
environment. -/
theorem c1_witness :
    benignClose (Env.mk none [] none [] .ok).finalClose = true ∧
      ((run "COM3" 9600 ⟨none, [], none, [], .ok⟩).fault = none ∧
        (run "COM3" 9600 ⟨none, [], none, [], .ok⟩).events.getLast? =
          some (.connectionStatus false "Disconnected.") ∧
        (run "COM3" 9600 ⟨none, [], none, [], .ok⟩).final.running = false ∧
        (run "COM3" 9600 ⟨none, [], none, [], .ok⟩).final.ser = none) :=
  ⟨by decide, c1_amended "COM3" 9600 ⟨none, [], none, [], .ok⟩ (by decide)⟩

/-- C2.  First conjunct (FIFO): in every environment the byte frames
passed to the transport are the encodings, newline-terminated, of a
prefix of the enqueued commands taken in enqueue order — no
reordering, coalescing or deduplication is possible.  Second conjunct
(exactness and echo): a connected worker given one idle loop iteration
per pending command writes exactly every pending command's frame in
enqueue order, each write immediately followed by its echoed
DataReceived-style "TX: " record. -/
theorem c2_fifo_frames :
    (∀ (s : WState) (iters : List Iter),
        ∃ cs t, cs ++ t = s.send_queue ++ iters.flatMap Iter.enq ∧
          (runLoop s iters).writes = cs.map frame) ∧
      (∀ q0 : List String,
        (runLoop ⟨true, some (), q0⟩ (List.replicate q0.length idleIter)).writes =
            q0.map frame ∧
          (runLoop ⟨true, some (), q0⟩ (List.replicate q0.length idleIter)).events =
            q0.map (fun c => Ev.dataReceived ("TX: " ++ pyStrip c))) :=
  ⟨fun s iters => runLoop_fifo iters s, runLoop_drain⟩

/-- C3, counterexample.  On an open failure the worker emits TWO
ConnectionChanged(false, ...) events, not one: the
"Connection Failed: ..." status from the exception handler and then
the mandatory final "Disconnected." from the teardown. -/
theorem c3_counterexample :
    ((run "COM3" 9600
        ⟨some "could not open port COM3", [], none, [], .ok⟩).events.countP
      isConnFalse) = 2 := by
  decide

/-- C3, amended.  If opening the transport fails, the worker emits
exactly one failure-message ConnectionChanged(false,
"Connection Failed: ...") followed by the mandatory final
ConnectionChanged(false, "Disconnected.") — two disconnected statuses
in total and nothing else — terminates without entering the I/O loop,
attempts no reads or writes, and no fault escapes. -/
theorem c3_amended (p : String) (b : Nat) (msg : String) (pre : List String)
    (ss : Option CloseRes) (iters : List Iter) (fc : CloseRes) :
    run p b ⟨some msg, pre, ss, iters, fc⟩ =
      ⟨[.connectionStatus false ("Connection Failed: " ++ msg),
        .connectionStatus false "Disconnected."],
       [], ⟨false, none, []⟩, none⟩ :=
  run_open_fail p b _ msg rfl

/-- C4, counterexample.  send_data can be called before the worker
enqueues the handshake (the worker sleeps 5 s between open and
handshake, and the queue is caller-writable the whole time): if "A1"
is enqueued during that window, the first frame written after the
successful open is "A1\n", not "INIT_CHECK\n". -/
theorem c4_counterexample :
    (run "COM3" 9600 ⟨none, ["A1"], none, [idleIter], .ok⟩).writes.head? =
        some (frame "A1") ∧
      frame "A1" ≠ frame "INIT_CHECK" := by
  constructor
  · rfl
  · decide

/-- C4, amended.  Provided the caller neither enqueues a command nor
stops the worker before the handshake point, every successful open
emits the ConnectionChanged(true, ...) status as the very first event,
no further connected status ever follows (in particular it precedes
every DataReceived event), and the first frame written — if any frame
is written at all — is "INIT_CHECK" followed by a newline. -/
theorem c4_amended (p : String) (b : Nat) (iters : List Iter) (fc : CloseRes) :
    (run p b ⟨none, [], none, iters, fc⟩).events.head? =
        some (.connectionStatus true (connMsg p b)) ∧
      ((run p b ⟨none, [], none, iters, fc⟩).events.drop 1).all
          (fun e => !isConnTrue e) = true ∧
      (run p b ⟨none, [], none, iters, fc⟩).writes.headD (frame "INIT_CHECK") =
        frame "INIT_CHECK" := by
  have hev := run_events_open_ok p b ⟨none, [], none, iters, fc⟩ rfl
  rw [hsEvents_quiet] at hev
  refine ⟨?_, ?_, ?_⟩
  · rw [hev]
    rfl
  · rw [hev]
    show ((runLoop (hsState ⟨none, [], none, iters, fc⟩) iters).events ++ _).all _ = true
    rw [List.all_eq_true]
    intro e he
    rcases List.mem_append.mp he with h | h
    · simp [(runLoop_evs_mem _ _ e h).2]
    · rcases h3 : (stop_serial (runLoop (hsState ⟨none, [], none, iters, fc⟩) iters).state fc).raised with _ | m
      all_goals rw [h3] at h
      · simp at h
        subst h
        rfl
      · simp at h
  · have hw := run_writes_open_ok p b ⟨none, [], none, iters, fc⟩ rfl
    rw [hsState_quiet] at hw
    obtain ⟨cs, t, hct, hws⟩ := runLoop_fifo iters ⟨true, some (), ["INIT_CHECK"]⟩
    cases cs with
    | nil =>
      rw [hw, hws]
      rfl
    | cons c cs =>
      simp at hct
      rw [hw, hws, hct.1]
      rfl

/-- C5.  A decode failure never terminates the session: the worker
emits the WARNING record carrying the number of discarded raw bytes on
the data channel, breaks nothing, and the I/O loop goes on — the same
iteration still services the next queued outbound command (first
conjunct) or simply continues when nothing is queued (second
conjunct). -/
theorem c5_decode_failure_resilient :
    (∀ (c : String) (q : List String) (n : Nat) (rest : List Iter),
        runLoop ⟨true, some (), c :: q⟩ (corruptIter n :: rest) =
          ⟨(runLoop ⟨true, some (), q⟩ rest).state,
           .dataReceived ("WARNING: Corrupt data received and discarded (" ++
               toString n ++ " bytes).") ::
             .dataReceived ("TX: " ++ pyStrip c) ::
               (runLoop ⟨true, some (), q⟩ rest).events,
           frame c :: (runLoop ⟨true, some (), q⟩ rest).writes⟩) ∧
      (∀ (n : Nat) (rest : List Iter),
        runLoop ⟨true, some (), []⟩ (corruptIter n :: rest) =
          ⟨(runLoop ⟨true, some (), []⟩ rest).state,
           .dataReceived ("WARNING: Corrupt data received and discarded (" ++
               toString n ++ " bytes).") ::
             (runLoop ⟨true, some (), []⟩ rest).events,
           (runLoop ⟨true, some (), []⟩ rest).writes⟩) := by
  constructor
  · intro c q n rest
    have hstep : step ⟨true, some (), c :: q⟩ (corruptIter n) =
        .next ⟨true, some (), q⟩
          [.dataReceived ("WARNING: Corrupt data received and discarded (" ++
              toString n ++ " bytes)."),
           .dataReceived ("TX: " ++ pyStrip c)] [frame c] := by
      simp [step, postCaller, corruptIter, applyStop, applyEnq_mk, readPhase,
        rawEvents, pyStrip_append_newline]
    rw [runLoop_cons_next _ _ _ _ _ _ hstep]
    rfl
  · intro n rest
    have hstep : step ⟨true, some (), []⟩ (corruptIter n) =
        .next ⟨true, some (), []⟩
          [.dataReceived ("WARNING: Corrupt data received and discarded (" ++
              toString n ++ " bytes).")] [] := by
      simp [step, postCaller, corruptIter, applyStop, applyEnq_mk, readPhase,
        rawEvents]
    rw [runLoop_cons_next _ _ _ _ _ _ hstep]
    rfl

/-- C6.  First conjunct: a write failure mid-loop emits exactly the
one ConnectionChanged(false, "Write Error: ...") status for that
iteration and breaks at once — the failing attempt is the last write
attempt, whatever the rest of the script holds.  Second conjunct: a
whole run never carries more than one Write Error status.  Third
conjunct: every run — the write-failure one included — ends in the
Closed state (flag down, handle cleared). -/
theorem c6_write_failure :
    (∀ (c : String) (q : List String) (m : String) (rest : List Iter),
        runLoop ⟨true, some (), c :: q⟩ (writeFailIter m :: rest) =
          ⟨⟨true, some (), q⟩,
           [.connectionStatus false ("Write Error: " ++ m)], [frame c]⟩) ∧
      (∀ (p : String) (b : Nat) (e : Env),
        (run p b e).events.countP isWriteErrEv ≤ 1) ∧
      (∀ (p : String) (b : Nat) (e : Env),
        (run p b e).final.running = false ∧ (run p b e).final.ser = none) := by
  refine ⟨?_, run_countWE, run_final_closed⟩
  intro c q m rest
  have hstep : step ⟨true, some (), c :: q⟩ (writeFailIter m) =
      .exit ⟨true, some (), q⟩
        [.connectionStatus false ("Write Error: " ++ m)] [frame c] := by
    simp [step, postCaller, writeFailIter, applyStop, applyEnq_mk, readPhase]
  rw [runLoop_cons_exit _ _ _ _ _ _ hstep]

/-- C7.  stop_serial is idempotent: after any stop_serial call a
second call returns at once — same state, same handle, nothing raised,
no close attempted — and calling it on any already-stopped worker
(flag down) is a complete no-op. -/
theorem c7_stop_idempotent :
    (∀ (s : WState) (c1 c2 : CloseRes),
        stop_serial (stop_serial s c1).state c2 =
          ⟨(stop_serial s c1).state, none, false⟩) ∧
      (∀ (sr : Option Unit) (q : List String) (c : CloseRes),
        stop_serial ⟨false, sr, q⟩ c = ⟨⟨false, sr, q⟩, none, false⟩) :=
  ⟨fun s c1 c2 => stop_serial_not_running _ c2 (stop_serial_state_running s c1),
   fun _ _ c => stop_serial_not_running _ c rfl⟩

/-- C8.  send_data is a total function that always succeeds: it grows
the queue by exactly one entry, leaves every already-queued command in
place, and the appended entry's byte frame is the command text UTF-8
encoded with a newline terminator — the queue is unbounded and nothing
is deduplicated or dropped. -/
theorem c8_send_data_total_append :
    ∀ (data : String) (q : List String),
      (send_data data q).length = q.length + 1 ∧
        (send_data data q).take q.length = q ∧
        (send_data data q).map frame = q.map frame ++ [utf8 data ++ [10]] := by
  intro data q
  refine ⟨by simp [send_data], ?_, by simp [send_data, frame]⟩
  show (q ++ [data]).take q.length = q
  rw [List.take_left]

/-- C9.  First conjunct: every event any run ever emits is either a
connection_status emission or a data_received payload of one of the
three textual shapes — "RX: " plus a non-empty trimmed text, "TX: "
plus a trimmed command text, or the "WARNING: ..." corrupt-data
message; warnings have no event variant of their own.  Second
conjunct: an inbound line whose decoded text trims to empty produces
no event at all. -/
theorem c9_channel_shapes :
    (∀ (p : String) (b : Nat) (e : Env) (ev : Ev),
        ev ∈ (run p b e).events → evShape ev) ∧
      (∀ (t : String) (rest : List Iter), pyStrip t = "" →
        runLoop ⟨true, some (), []⟩ (textIter t :: rest) =
          runLoop ⟨true, some (), []⟩ rest) := by
  constructor
  · intro p b e ev h
    cases ho : e.openErr with
    | some msg =>
      rw [run_open_fail p b e msg ho] at h
      simp at h
      rcases h with h | h <;> subst h <;> exact Or.inl ⟨_, _, rfl⟩
    | none =>
      rw [run_events_open_ok p b e ho] at h
      rcases List.mem_append.mp h with h | h
      · rcases List.mem_append.mp h with h | h
        · unfold hsEvents at h
          split at h
          · simp at h
            subst h
            exact Or.inl ⟨_, _, rfl⟩
          · simp at h
        · exact (runLoop_evs_mem e.iters _ ev h).1
      · rcases h3 : (stop_serial (runLoop (hsState e) e.iters).state e.finalClose).raised with _ | m
        all_goals rw [h3] at h
        · simp at h
          subst h
          exact Or.inl ⟨_, _, rfl⟩
        · simp at h
  · intro t rest ht
    have hstep : step ⟨true, some (), []⟩ (textIter t) =
        .next ⟨true, some (), []⟩ [] [] := by
      simp [step, postCaller, textIter, applyStop, applyEnq_mk, readPhase,
        rawEvents, ht]
    rw [runLoop_cons_next _ _ _ _ _ _ hstep]
    rfl

/-- C9, witness: the Disconnected status of a concrete run satisfies
the shapes, and a whitespace-only inbound line on a concrete script
emits nothing. -/
theorem c9_witness :
    evShape (Ev.connectionStatus false "Disconnected.") ∧
      (pyStrip " " = "" ∧
        runLoop ⟨true, some (), []⟩ (textIter " " :: []) =
          runLoop ⟨true, some (), []⟩ []) :=
  ⟨c9_channel_shapes.1 "COM3" 9600 ⟨none, [], none, [], .ok⟩ _ (by decide),
   ⟨by decide, c9_channel_shapes.2 " " [] (by decide)⟩⟩

/-- C10.  First conjunct: every run, whatever the environment did —
benign or raising close included — ends with the run flag down and the
transport handle field cleared.  Second conjunct: stop_serial on any
running worker, for every close outcome (clean, benign OSError,
re-raised OSError, or non-OSError exception), leaves the flag down and
the handle cleared: the `finally` releases the handle on every path. -/
theorem c10_stop_clears_handle :
    (∀ (p : String) (b : Nat) (e : Env),
        (run p b e).final.running = false ∧ (run p b e).final.ser = none) ∧
      (∀ (sr : Option Unit) (q : List String) (c : CloseRes),
        (stop_serial ⟨true, sr, q⟩ c).state = ⟨false, none, q⟩) :=
  ⟨run_final_closed, fun _ _ c => stop_serial_state_of_running _ c rfl⟩

end BBControl
